import Mathlib

/-!
Shallow embedding of `lfs/static/js/lfs.manage.js` (django-lfs back-office
view binder) and proofs about the behaviors its specification claims.

Modelling conventions:
  * A JSON envelope response is a structure with an optional `message`
    field and an `html` field holding an ordered list of
    `(selector, markup)` pairs.
  * A handler's notification behavior is modelled as the list of arguments
    passed to `$.jGrowl`; an argument is `Option String` because JavaScript
    happily passes `undefined` (our `none`) when the field is absent.
  * The DOM, where a handler patches it by selector, is modelled as a
    function from selector strings to markup strings.
  * jQuery query results (the elements matched by `find`, `parents`, etc.)
    are passed to the models as explicit lists, exactly the flat element
    lists jQuery hands to `each` loops; the page templates that determine
    those lists are outside this file.
-/

namespace LfsManage

/-! ## JSON envelope (response shape shared by the envelope handlers) -/

/-- JSON envelope: optional `message`, plus `html` as an ordered list of
`(selector, markup)` pairs, as consumed by the `for (var html in data["html"])`
loops in the source. -/
structure Envelope where
  message : Option String
  html : List (String × String)
deriving Repr, DecidableEq

/-- JavaScript truthiness of the `message` field as tested by
`if (data["message"])`: `undefined` (absent) and the empty string are falsy. -/
def truthy : Option String → Bool
  | none => false
  | some s => !(s == "")

/-! ## C1: notification behavior of the envelope handlers -/

/-- Notifications shown by the `#product-name-filter` keyup success callback
(lines 129-142): `if (data["message"]) { $.jGrowl(data["message"]); }`. -/
def product_name_filter_notifications (e : Envelope) : List (Option String) :=
  if truthy e.message then [e.message] else []

/-- Notifications shown by the `.ajax-save-button` click success callback
(lines 145-157): `$.jGrowl(data["message"]);` with no guard, so the call is
made even when the `message` field is absent. -/
def ajax_save_button_notifications (e : Envelope) : List (Option String) :=
  [e.message]

/-- Notifications shown by the `.ajax-save-button-2` click success callback
(lines 160-178): guarded by `if (data["message"])`. -/
def ajax_save_button_2_notifications (e : Envelope) : List (Option String) :=
  if truthy e.message then [e.message] else []

/-- Notifications shown by the `.ajax-link` click success callback
(lines 181-193): guarded by `if (data["message"])`. -/
def ajax_link_notifications (e : Envelope) : List (Option String) :=
  if truthy e.message then [e.message] else []

/-- Notifications shown by the `.category-products-remove-button` success
callback (lines 311-319): `$.jGrowl("Produkte wurden von Kategorie entfernt.")`
with a hard-coded text, independent of the response body. -/
def category_products_remove_notifications (_data : String) : List (Option String) :=
  [some "Produkte wurden von Kategorie entfernt."]

/-! ## C6: DOM patching from an `html` pair list -/

/-- One step of the patch loop: `$(pair[0]).html(pair[1])`, i.e. the DOM
(selector-to-markup function) updated at the pair's selector. -/
def apply_pair (dom : String → String) (p : String × String) : String → String :=
  fun s => if s = p.1 then p.2 else dom s

/-- The whole loop `for (var html in data["html"]) $(...[0]).html(...[1])`:
the pairs applied left to right, in list order. -/
def apply_html (pairs : List (String × String)) (dom : String → String) : String → String :=
  pairs.foldl apply_pair dom

/-- DOM effect of the `.ajax-link` success callback (lines 181-193). -/
def ajax_link_dom (e : Envelope) (dom : String → String) : String → String :=
  apply_html e.html dom

/-- DOM effect of the `#product-name-filter` success callback (lines 129-142). -/
def product_name_filter_dom (e : Envelope) (dom : String → String) : String → String :=
  apply_html e.html dom

/-! ## C2: debounced versus immediate filter submission -/

/-- The quiet interval passed to `setTimeout` in the `.products-name-filter`
keyup handler (line 385). -/
def debounce_delay : Nat := 500

/-- Requests fired by the `.products-name-filter` keyup handler (lines
374-386) for a timeline of keystrokes `(time, field value)` in ascending
time order. Each keystroke clears the pending timer and schedules a submit
at its time plus `debounce_delay`; the timer survives only if the next
keystroke comes at or after its fire time, and the submit serializes the
form, i.e. carries the value of the keystroke that scheduled it. -/
def products_name_filter_requests : List (Nat × String) → List (Nat × String)
  | [] => []
  | [(t, v)] => [(t + debounce_delay, v)]
  | (t, v) :: (t2, v2) :: rest =>
    if t + debounce_delay ≤ t2 then
      (t + debounce_delay, v) :: products_name_filter_requests ((t2, v2) :: rest)
    else
      products_name_filter_requests ((t2, v2) :: rest)

/-- Requests fired by the `.category-products-filter-input` keyup handler
(lines 321-327): `ajaxSubmit` is called directly in the handler, so every
keystroke fires one request at its own time with the value typed so far. -/
def category_products_filter_requests (ks : List (Nat × String)) : List (Nat × String) :=
  ks

/-! ## C5 and C9: pure helpers `align_buttons` and `update_positions` -/

/-- Model of `align_buttons` (lines 50-56) and its specialized clones
(`align_related_products_buttons`, lines 26-32, etc.): read both column
heights, compute the maximum, set both columns to it. Returns the pair of
resulting (left, right) heights. -/
def align_buttons (hl hr : Nat) : Nat × Nat :=
  let h := max hl hr
  (h, h)

/-- The loop body accumulator of `update_positions` (lines 70-76): `position`
starts at the given value, and each `.position` element receives
`position += 10`. Returns the list of values written, in document order. -/
def update_positions_go (position : Nat) : List Nat → List Nat
  | [] => []
  | _ :: rest => (position + 10) :: update_positions_go (position + 10) rest

/-- Model of `update_positions` (lines 70-76), taking the previous values of
the `.position` elements in document order and returning the new ones. -/
def update_positions (xs : List Nat) : List Nat :=
  update_positions_go 0 xs

/-! ## C3: export category tree handlers -/

/-- One server response of `lfs_export_category_state` as consumed by
`update_parent_categories` (lines 1120-1132): an `html` pair
`(selector, markup)` and a `checkbox` pair `(selector, checkedBoolean)`. -/
structure AncestorState where
  htmlSel : String
  htmlMarkup : String
  checkboxSel : String
  checkboxVal : Bool
deriving Repr, DecidableEq

/-- The element environment the `.export-category-input` click handler
(lines 1162-1183) reads through jQuery: the inputs under the clicked node's
parent, the `.category-state` containers under it, the `data` urls of the
ancestor `li.category` elements, and the clicked input's own `data` url. -/
structure ExportEnv where
  subtreeInputs : List Nat
  subtreeStates : List Nat
  ancestorUrls : List String
  url : String
deriving Repr, DecidableEq

/-- The mutable page state the export handlers touch: checkbox state by
element id, state-indicator text by element id, and, for the ancestor
responses, markup and checkbox state addressed by selector. -/
structure ExportDom where
  checkedOf : Nat → Bool
  stateOf : Nat → String
  markupOf : String → String
  checkedBySel : String → Bool

/-- The loop `$(this).parent().find("input").each(function() { this.checked =
parent_checked; })` (line 1167): every input in the clicked node's subtree is
set to the clicked checkbox's state. -/
def set_subtree_checked (ids : List Nat) (b : Bool) (f : Nat → Bool) : Nat → Bool :=
  fun i => if i ∈ ids then b else f i

/-- Model of `update_sub_categories` (lines 1135-1137):
`knot.parent().find(".category-state").html("")`. -/
def update_sub_categories (ids : List Nat) (f : Nat → String) : Nat → String :=
  fun i => if i ∈ ids then "" else f i

/-- The urls posted by `update_parent_categories` (lines 1120-1132): one POST
per ancestor `li.category`, to that element's `data` url. -/
def update_parent_categories_requests (ancestorUrls : List String) : List String :=
  ancestorUrls

/-- Applying one `lfs_export_category_state` response (lines 1126-1129):
`$(data["html"][0]).html(data["html"][1])` and
`$(data["checkbox"][0]).attr("checked", data["checkbox"][1])`. -/
def apply_ancestor_state (dom : ExportDom) (r : AncestorState) : ExportDom :=
  { dom with
    markupOf := fun s => if s = r.htmlSel then r.htmlMarkup else dom.markupOf s
    checkedBySel := fun s => if s = r.checkboxSel then r.checkboxVal else dom.checkedBySel s }

/-- All ancestor responses applied in arrival order. -/
def apply_ancestor_states (rs : List AncestorState) (dom : ExportDom) : ExportDom :=
  rs.foldl apply_ancestor_state dom

/-- Full model of the `.export-category-input` click handler (lines
1162-1183) together with its success callback: returns the add/remove
requests issued for the toggled node, the ancestor-state requests, and the
page state after the callback ran with the given ancestor responses. -/
def export_category_click (env : ExportEnv) (checked : Bool) (dom : ExportDom)
    (responses : List AncestorState) :
    List (String × String) × List String × ExportDom :=
  let primary := [(env.url, if checked then "add" else "remove")]
  let dom1 : ExportDom :=
    { dom with
      checkedOf := set_subtree_checked env.subtreeInputs checked dom.checkedOf
      stateOf := update_sub_categories env.subtreeStates dom.stateOf }
  (primary, update_parent_categories_requests env.ancestorUrls,
    apply_ancestor_states responses dom1)

/-! ## C4 and C7: delegated confirmation flow -/

/-- A confirmable link as the `.confirmation-link` handler (lines 948-955)
reads it: its `href`, `data` and `class` attributes. -/
structure CLink where
  url : String
  data : String
  cls : String
deriving Repr, DecidableEq

/-- A page slot holds either an original confirmable link or the yes/no
widget built from one by line 953. -/
inductive PageItem where
  | link (l : CLink)
  | widget (l : CLink)
deriving Repr, DecidableEq

/-- State of the confirmation component: the page items, the single global
`confirmation` variable (line 942), and the pending navigation target. -/
structure ConfState where
  page : List PageItem
  slot : Option CLink
  nav : Option String
deriving Repr, DecidableEq

/-- Events on the confirmation component, each addressing a page position. -/
inductive ConfEvent where
  | clickLink (i : Nat)
  | clickNo (i : Nat)
  | clickYes (i : Nat)
deriving Repr, DecidableEq

/-- One step of the confirmation component. Clicking a confirmable link
(lines 948-955) saves it in the global slot and replaces it with the widget,
returning false so no navigation happens. Clicking "no" (lines 943-946)
replaces the widget with whatever the slot currently holds. Clicking "yes"
follows the plain anchor, navigating to the widget's stored `href`. -/
def conf_step (s : ConfState) : ConfEvent → ConfState
  | .clickLink i =>
    match s.page[i]? with
    | some (.link l) =>
      { page := s.page.set i (.widget l), slot := some l, nav := s.nav }
    | _ => s
  | .clickNo i =>
    match s.page[i]?, s.slot with
    | some (.widget _), some l => { s with page := s.page.set i (.link l) }
    | _, _ => s
  | .clickYes i =>
    match s.page[i]? with
    | some (.widget l) => { s with nav := some l.url }
    | _ => s

/-! ## C8: persisted UI preferences -/

/-- JavaScript `parseInt` restricted to the cookie values this file writes
(decimal digit strings): the leading digit run parsed as a number, `none`
standing for `NaN` when there is no leading digit. -/
def parseIntJS (s : String) : Option Nat :=
  let ds := s.data.takeWhile Char.isDigit
  if ds.isEmpty then none
  else some (ds.foldl (fun n c => 10 * n + (c.toNat - 48)) 0)

/-- Tab index selected at load (lines 105-107 and 114-116):
`index = (cookie != null) ? parseInt(cookie) : 0`. `none` stands for `NaN`. -/
def tabs_select_index (cookie : Option String) : Option Nat :=
  match cookie with
  | none => some 0
  | some s => parseIntJS s

/-- The `.property-edit-mode` click handler (lines 1265-1276): if the cookie
reads `"true"` the edit fields are hidden and `false` is stored, otherwise
(absent or any other value) they are shown and `true` is stored. Returns
(edit fields visible after the click, new cookie value). -/
def property_edit_mode_click (em : Option String) : Bool × String :=
  if em = some "true" then (false, "false") else (true, "true")

/-! ## C10: shift-click row range selection -/

/-- A product table row as the `input.select-1` click handler (lines 734-764)
sees it: whether it has the `marked` class and whether its `select-1`
checkbox is checked. -/
structure Row where
  marked : Bool
  sel : Bool
deriving Repr, DecidableEq

/-- The shift branch of the checked case (lines 738-747): walk the preceding
rows (nearest first); stop at the first row with class `marked`; mark and
check each row before it. -/
def shift_mark_up : List Row → List Row
  | [] => []
  | r :: rest =>
    if r.marked then r :: rest
    else ⟨true, true⟩ :: shift_mark_up rest

/-- The shift branch of the unchecked case (lines 753-762): walk the
preceding rows (nearest first); stop at the first row without class
`marked`; unmark and uncheck each row before it. -/
def shift_unmark_up : List Row → List Row
  | [] => []
  | r :: rest =>
    if r.marked then ⟨false, false⟩ :: shift_unmark_up rest
    else r :: rest

/-- Full model of the `input.select-1` click handler (lines 734-764): the
clicked checkbox is already in its new state `nowChecked`; the own row gains
or loses the `marked` class, and with shift held the preceding rows (nearest
first) are swept by the matching shift branch. Returns (own row, preceding
rows) afterwards. -/
def select1_click (nowChecked shift : Bool) (_own : Row) (prev : List Row) :
    Row × List Row :=
  if nowChecked then
    (⟨true, nowChecked⟩, if shift then shift_mark_up prev else prev)
  else
    (⟨false, nowChecked⟩, if shift then shift_unmark_up prev else prev)

/-! ## Helper lemmas -/

/-- Setting a list position to the value it already holds leaves the list
unchanged. -/
theorem list_set_own {α : Type} : ∀ (l : List α) (i : Nat) (a : α),
    l[i]? = some a → l.set i a = l := by
  intro l
  induction l with
  | nil => intro i a h; simp at h
  | cons x xs ih =>
    intro i a h
    cases i with
    | zero =>
      simp only [List.getElem?_cons_zero, Option.some.injEq] at h
      simp [h]
    | succ n =>
      simp only [List.getElem?_cons_succ] at h
      simp [ih n a h]

theorem apply_html_cons (p : String × String) (ps : List (String × String))
    (dom : String → String) :
    apply_html (p :: ps) dom = apply_html ps (apply_pair dom p) := rfl

theorem apply_html_frame : ∀ (ps : List (String × String)) (dom : String → String)
    (s : String), s ∉ ps.map Prod.fst → apply_html ps dom s = dom s := by
  intro ps
  induction ps with
  | nil => intro dom s _; rfl
  | cons p rest ih =>
    intro dom s hs
    rw [List.map_cons, List.mem_cons, not_or] at hs
    rw [apply_html_cons, ih _ _ hs.2]
    simp [apply_pair, hs.1]

theorem apply_html_applies : ∀ (ps : List (String × String)) (dom : String → String),
    (ps.map Prod.fst).Nodup → ∀ sel m, (sel, m) ∈ ps → apply_html ps dom sel = m := by
  intro ps
  induction ps with
  | nil => intro dom _ sel m hm; simp at hm
  | cons p rest ih =>
    intro dom hnd sel m hm
    rw [List.map_cons, List.nodup_cons] at hnd
    rw [apply_html_cons]
    rcases List.mem_cons.mp hm with h | h
    · have hsel : sel ∉ rest.map Prod.fst := by
        rw [← h] at hnd
        exact hnd.1
      rw [apply_html_frame rest _ sel hsel]
      simp [apply_pair, ← h]
    · exact ih _ hnd.2 sel m h

theorem apply_html_snoc (ps : List (String × String)) (p : String × String)
    (dom : String → String) :
    apply_html (ps ++ [p]) dom = apply_pair (apply_html ps dom) p := by
  simp [apply_html, List.foldl_append]

theorem apply_ancestor_states_checkedOf : ∀ (rs : List AncestorState) (d : ExportDom),
    (apply_ancestor_states rs d).checkedOf = d.checkedOf := by
  intro rs
  induction rs with
  | nil => intro d; rfl
  | cons r rest ih =>
    intro d
    show (apply_ancestor_states rest (apply_ancestor_state d r)).checkedOf = d.checkedOf
    rw [ih]
    rfl

theorem apply_ancestor_states_stateOf : ∀ (rs : List AncestorState) (d : ExportDom),
    (apply_ancestor_states rs d).stateOf = d.stateOf := by
  intro rs
  induction rs with
  | nil => intro d; rfl
  | cons r rest ih =>
    intro d
    show (apply_ancestor_states rest (apply_ancestor_state d r)).stateOf = d.stateOf
    rw [ih]
    rfl

theorem apply_ancestor_states_markup_frame : ∀ (rs : List AncestorState) (d : ExportDom)
    (s : String), s ∉ rs.map AncestorState.htmlSel →
    (apply_ancestor_states rs d).markupOf s = d.markupOf s := by
  intro rs
  induction rs with
  | nil => intro d s _; rfl
  | cons r rest ih =>
    intro d s hs
    rw [List.map_cons, List.mem_cons, not_or] at hs
    show (apply_ancestor_states rest (apply_ancestor_state d r)).markupOf s = d.markupOf s
    rw [ih _ _ hs.2]
    simp [apply_ancestor_state, hs.1]

theorem apply_ancestor_states_markup_applies : ∀ (rs : List AncestorState) (d : ExportDom),
    (rs.map AncestorState.htmlSel).Nodup → ∀ r ∈ rs,
    (apply_ancestor_states rs d).markupOf r.htmlSel = r.htmlMarkup := by
  intro rs
  induction rs with
  | nil => intro d _ r hr; simp at hr
  | cons r0 rest ih =>
    intro d hnd r hr
    rw [List.map_cons, List.nodup_cons] at hnd
    show (apply_ancestor_states rest (apply_ancestor_state d r0)).markupOf r.htmlSel
      = r.htmlMarkup
    rcases List.mem_cons.mp hr with h | h
    · subst h
      rw [apply_ancestor_states_markup_frame rest _ r.htmlSel hnd.1]
      simp [apply_ancestor_state]
    · exact ih _ hnd.2 r h

theorem apply_ancestor_states_checkbox_frame : ∀ (rs : List AncestorState) (d : ExportDom)
    (s : String), s ∉ rs.map AncestorState.checkboxSel →
    (apply_ancestor_states rs d).checkedBySel s = d.checkedBySel s := by
  intro rs
  induction rs with
  | nil => intro d s _; rfl
  | cons r rest ih =>
    intro d s hs
    rw [List.map_cons, List.mem_cons, not_or] at hs
    show (apply_ancestor_states rest (apply_ancestor_state d r)).checkedBySel s
      = d.checkedBySel s
    rw [ih _ _ hs.2]
    simp [apply_ancestor_state, hs.1]

theorem apply_ancestor_states_checkbox_applies : ∀ (rs : List AncestorState) (d : ExportDom),
    (rs.map AncestorState.checkboxSel).Nodup → ∀ r ∈ rs,
    (apply_ancestor_states rs d).checkedBySel r.checkboxSel = r.checkboxVal := by
  intro rs
  induction rs with
  | nil => intro d _ r hr; simp at hr
  | cons r0 rest ih =>
    intro d hnd r hr
    rw [List.map_cons, List.nodup_cons] at hnd
    show (apply_ancestor_states rest (apply_ancestor_state d r0)).checkedBySel r.checkboxSel
      = r.checkboxVal
    rcases List.mem_cons.mp hr with h | h
    · subst h
      rw [apply_ancestor_states_checkbox_frame rest _ r.checkboxSel hnd.1]
      simp [apply_ancestor_state]
    · exact ih _ hnd.2 r h

theorem update_positions_go_length : ∀ (xs : List Nat) (p : Nat),
    (update_positions_go p xs).length = xs.length := by
  intro xs
  induction xs with
  | nil => intro p; rfl
  | cons x rest ih =>
    intro p
    simp [update_positions_go, ih]

theorem update_positions_go_getElem : ∀ (xs : List Nat) (p i : Nat), i < xs.length →
    (update_positions_go p xs)[i]? = some (p + 10 * (i + 1)) := by
  intro xs
  induction xs with
  | nil => intro p i h; simp at h
  | cons x rest ih =>
    intro p i h
    cases i with
    | zero => simp [update_positions_go]
    | succ n =>
      rw [List.length_cons, Nat.succ_lt_succ_iff] at h
      show (update_positions_go p (x :: rest))[n + 1]? = _
      rw [show update_positions_go p (x :: rest)
          = (p + 10) :: update_positions_go (p + 10) rest from rfl]
      rw [List.getElem?_cons_succ, ih (p + 10) n h]
      congr 1
      ring

theorem shift_mark_up_eq : ∀ prev : List Row,
    shift_mark_up prev =
      (prev.takeWhile (fun r => !r.marked)).map (fun _ => (⟨true, true⟩ : Row)) ++
        prev.dropWhile (fun r => !r.marked) := by
  intro prev
  induction prev with
  | nil => rfl
  | cons r rest ih =>
    cases hr : r.marked with
    | true =>
      simp [shift_mark_up, hr, List.takeWhile_cons, List.dropWhile_cons]
    | false =>
      simp [shift_mark_up, hr, List.takeWhile_cons, List.dropWhile_cons, ih]

theorem shift_unmark_up_eq : ∀ prev : List Row,
    shift_unmark_up prev =
      (prev.takeWhile (fun r => r.marked)).map (fun _ => (⟨false, false⟩ : Row)) ++
        prev.dropWhile (fun r => r.marked) := by
  intro prev
  induction prev with
  | nil => rfl
  | cons r rest ih =>
    cases hr : r.marked with
    | true =>
      simp [shift_unmark_up, hr, List.takeWhile_cons, List.dropWhile_cons, ih]
    | false =>
      simp [shift_unmark_up, hr, List.takeWhile_cons, List.dropWhile_cons]

/-! ## Claim theorems -/

/-- Claim C1, counterexample: the `.ajax-save-button` success callback shows a
notification even for a successful response without a `message` field (it
calls `$.jGrowl(data["message"])` unconditionally), so the claim that a
response without `message` shows no notification is false for that handler. -/
theorem c1_counterexample :
    ajax_save_button_notifications { message := none, html := [] } ≠ [] := by
  simp [ajax_save_button_notifications]

/-- Claim C1 (amended): the `#product-name-filter`, `.ajax-save-button-2` and
`.ajax-link` handlers show exactly one notification with the message text
when a non-empty `message` is present and none when it is absent; the
`.ajax-save-button` handler always invokes the notification exactly once,
passing the `message` field even when it is absent; and the
`.category-products-remove-button` handler always shows exactly one
notification with a fixed hard-coded text regardless of the response. -/
theorem c1_notifications_amended (e : Envelope) :
    (∀ m : String, e.message = some m → m ≠ "" →
      product_name_filter_notifications e = [some m] ∧
      ajax_save_button_2_notifications e = [some m] ∧
      ajax_link_notifications e = [some m]) ∧
    (e.message = none →
      product_name_filter_notifications e = [] ∧
      ajax_save_button_2_notifications e = [] ∧
      ajax_link_notifications e = []) ∧
    ajax_save_button_notifications e = [e.message] ∧
    (∀ d : String, category_products_remove_notifications d =
      [some "Produkte wurden von Kategorie entfernt."]) := by
  refine ⟨?_, ?_, rfl, fun _ => rfl⟩
  · intro m hm hne
    have ht : truthy (some m) = true := by
      simp [truthy, hne]
    refine ⟨?_, ?_, ?_⟩ <;>
      simp [product_name_filter_notifications, ajax_save_button_2_notifications,
        ajax_link_notifications, ht, hm]
  · intro hm
    refine ⟨?_, ?_, ?_⟩ <;>
      simp [product_name_filter_notifications, ajax_save_button_2_notifications,
        ajax_link_notifications, truthy, hm]

/-- Claim C1, witness: the amended theorem evaluated on a concrete envelope
with message "Saved". -/
theorem c1_notifications_witness :
    product_name_filter_notifications { message := some "Saved", html := [] } =
      [some "Saved"] :=
  ((c1_notifications_amended { message := some "Saved", html := [] }).1
    "Saved" rfl (by decide)).1

/-- Claim C2, counterexample: the `.category-products-filter-input` keyup
handler submits immediately on every keystroke, so three keystrokes at
t=0, 100, 200 fire three requests, not the single debounced request the
claim asserts for every free-text filter field. -/
theorem c2_counterexample :
    (category_products_filter_requests
      [(0, "a"), (100, "ab"), (200, "abc")]).length ≠ 1 := by
  simp [category_products_filter_requests]

/-- Claim C2 (amended): the `.products-name-filter` keyup handler debounces
with a 500ms quiet interval — each keystroke cancels the pending scheduled
submission and reschedules, so for three keystrokes each falling inside the
previous one's quiet window exactly one request fires, 500ms after the last
keystroke, carrying the last value; in particular keystrokes at t=0, 100,
200 yield exactly one request at t=700 with the value as of t=200. The
`.category-products-filter-input` keyup handler, by contrast, fires one
request per keystroke with no debounce. -/
theorem c2_debounce_amended :
    (∀ (t1 t2 t3 : Nat) (v1 v2 v3 : String),
      t2 < t1 + debounce_delay → t3 < t2 + debounce_delay →
      products_name_filter_requests [(t1, v1), (t2, v2), (t3, v3)] =
        [(t3 + debounce_delay, v3)]) ∧
    (∀ v1 v2 v3 : String,
      products_name_filter_requests [(0, v1), (100, v2), (200, v3)] = [(700, v3)]) ∧
    (∀ ks : List (Nat × String), category_products_filter_requests ks = ks) := by
  refine ⟨?_, ?_, fun _ => rfl⟩
  · intro t1 t2 t3 v1 v2 v3 h12 h23
    have h1 : ¬ (t1 + debounce_delay ≤ t2) := Nat.not_le.mpr h12
    have h2 : ¬ (t2 + debounce_delay ≤ t3) := Nat.not_le.mpr h23
    simp [products_name_filter_requests, h1, h2]
  · intro v1 v2 v3
    norm_num [products_name_filter_requests, debounce_delay]

/-- Claim C2, witness: the amended theorem's general debounce clause at the
concrete keystroke timeline t=0, 100, 200. -/
theorem c2_debounce_witness :
    products_name_filter_requests [(0, "a"), (100, "ab"), (200, "abc")] =
      [(200 + debounce_delay, "abc")] :=
  c2_debounce_amended.1 0 100 200 "a" "ab" "abc"
    (by norm_num [debounce_delay]) (by norm_num [debounce_delay])

/-- Claim C5: `align_buttons` leaves both columns with equal height, equal to
the taller of the two pre-equalization heights, and applying it a second time
changes nothing. -/
theorem c5_align_buttons_spec (hl hr : Nat) :
    (align_buttons hl hr).1 = (align_buttons hl hr).2 ∧
    (align_buttons hl hr).1 = max hl hr ∧
    align_buttons (align_buttons hl hr).1 (align_buttons hl hr).2 =
      align_buttons hl hr := by
  refine ⟨rfl, rfl, ?_⟩
  simp [align_buttons]

/-- Claim C6: the envelope `html` list handlers (`.ajax-link` and
`#product-name-filter`) replace each named container with the corresponding
markup (when the selectors are distinct), mutate no container outside the
list, and apply the pairs in list order (appending a pair to the list
composes one more update after the earlier ones). -/
theorem c6_html_patch_spec (e : Envelope) (dom : String → String) :
    (∀ s : String, s ∉ e.html.map Prod.fst →
      ajax_link_dom e dom s = dom s ∧ product_name_filter_dom e dom s = dom s) ∧
    ((e.html.map Prod.fst).Nodup → ∀ sel m, (sel, m) ∈ e.html →
      ajax_link_dom e dom sel = m ∧ product_name_filter_dom e dom sel = m) ∧
    (∀ (pairs : List (String × String)) (p : String × String),
      apply_html (pairs ++ [p]) dom = apply_pair (apply_html pairs dom) p) := by
  refine ⟨?_, ?_, ?_⟩
  · intro s hs
    exact ⟨apply_html_frame e.html dom s hs, apply_html_frame e.html dom s hs⟩
  · intro hnd sel m hm
    exact ⟨apply_html_applies e.html dom hnd sel m hm,
      apply_html_applies e.html dom hnd sel m hm⟩
  · intro pairs p
    exact apply_html_snoc pairs p dom

/-- Claim C6, witness: the patch theorem on a concrete two-pair envelope with
an all-empty initial DOM, showing the second pair applied and an unnamed
container untouched. -/
theorem c6_html_patch_witness :
    ajax_link_dom { message := none, html := [("#a", "A"), ("#b", "B")] }
      (fun _ => "") "#b" = "B" ∧
    ajax_link_dom { message := none, html := [("#a", "A"), ("#b", "B")] }
      (fun _ => "") "#z" = "" :=
  ⟨((c6_html_patch_spec { message := none, html := [("#a", "A"), ("#b", "B")] }
      (fun _ => "")).2.1 (by simp) "#b" "B" (by simp)).1,
   ((c6_html_patch_spec { message := none, html := [("#a", "A"), ("#b", "B")] }
      (fun _ => "")).1 "#z" (by simp)).1⟩

/-- Claim C3: toggling an export-tree category checkbox sets every checkbox
in its subtree to the toggled state, issues exactly one request with action
`add` (checked) or `remove` (unchecked) for the toggled node, clears the
cached partial-selection indicator text on the subtree's state containers,
issues exactly one ancestor-state request per ancestor category, and applies
each returned `(selector, markup)` and `(selector, checkedBoolean)` pair. -/
theorem c3_export_category_click_spec (env : ExportEnv) (b : Bool) (dom : ExportDom)
    (rs : List AncestorState) :
    (export_category_click env b dom rs).1 =
      [(env.url, if b then "add" else "remove")] ∧
    (export_category_click env b dom rs).1.length = 1 ∧
    (export_category_click env b dom rs).2.1 = env.ancestorUrls ∧
    (∀ i ∈ env.subtreeInputs,
      (export_category_click env b dom rs).2.2.checkedOf i = b) ∧
    (∀ i ∈ env.subtreeStates,
      (export_category_click env b dom rs).2.2.stateOf i = "") ∧
    ((rs.map AncestorState.htmlSel).Nodup → ∀ r ∈ rs,
      (export_category_click env b dom rs).2.2.markupOf r.htmlSel = r.htmlMarkup) ∧
    ((rs.map AncestorState.checkboxSel).Nodup → ∀ r ∈ rs,
      (export_category_click env b dom rs).2.2.checkedBySel r.checkboxSel =
        r.checkboxVal) := by
  refine ⟨rfl, rfl, rfl, ?_, ?_, ?_, ?_⟩
  · intro i hi
    show (apply_ancestor_states rs _).checkedOf i = b
    rw [apply_ancestor_states_checkedOf]
    simp [set_subtree_checked, hi]
  · intro i hi
    show (apply_ancestor_states rs _).stateOf i = ""
    rw [apply_ancestor_states_stateOf]
    simp [update_sub_categories, hi]
  · intro hnd r hr
    exact apply_ancestor_states_markup_applies rs _ hnd r hr
  · intro hnd r hr
    exact apply_ancestor_states_checkbox_applies rs _ hnd r hr

/-- Claim C3, witness: the export-click theorem on a concrete one-ancestor
environment, checking the subtree checkbox flip and the applied ancestor
markup. -/
theorem c3_export_witness :
    (export_category_click ⟨[1, 2], [1], ["u1"], "k"⟩ true
      ⟨fun _ => false, fun _ => "1/2", fun _ => "", fun _ => false⟩
      [⟨"#s1", "full", "#c1", true⟩]).2.2.checkedOf 2 = true ∧
    (export_category_click ⟨[1, 2], [1], ["u1"], "k"⟩ true
      ⟨fun _ => false, fun _ => "1/2", fun _ => "", fun _ => false⟩
      [⟨"#s1", "full", "#c1", true⟩]).2.2.markupOf "#s1" = "full" :=
  ⟨(c3_export_category_click_spec ⟨[1, 2], [1], ["u1"], "k"⟩ true
      ⟨fun _ => false, fun _ => "1/2", fun _ => "", fun _ => false⟩
      [⟨"#s1", "full", "#c1", true⟩]).2.2.2.1 2 (by simp),
   (c3_export_category_click_spec ⟨[1, 2], [1], ["u1"], "k"⟩ true
      ⟨fun _ => false, fun _ => "1/2", fun _ => "", fun _ => false⟩
      [⟨"#s1", "full", "#c1", true⟩]).2.2.2.2.2.1 (by simp)
      ⟨"#s1", "full", "#c1", true⟩ (by simp)⟩

/-- Claim C4: clicking a confirmable link never navigates (the pending
navigation target is unchanged) and replaces the link with the yes/no
widget; clicking "no" right after restores the page with the original link
element unchanged in place of the widget; clicking "yes" navigates to the
original link's `href`. -/
theorem c4_confirmation_flow (s : ConfState) (i : Nat) (l : CLink)
    (h : s.page[i]? = some (.link l)) :
    (conf_step s (.clickLink i)).nav = s.nav ∧
    (conf_step s (.clickLink i)).page[i]? = some (.widget l) ∧
    (conf_step (conf_step s (.clickLink i)) (.clickNo i)).page = s.page ∧
    (conf_step (conf_step s (.clickLink i)) (.clickYes i)).nav = some l.url := by
  obtain ⟨hlt, -⟩ := List.getElem?_eq_some_iff.mp h
  have hw : (s.page.set i (.widget l))[i]? = some (.widget l) :=
    List.getElem?_set_self hlt
  have hs1 : conf_step s (.clickLink i) =
      ⟨s.page.set i (.widget l), some l, s.nav⟩ := by
    simp [conf_step, h]
  refine ⟨by rw [hs1], by rw [hs1]; exact hw, ?_, ?_⟩
  · rw [hs1]
    simp only [conf_step, hw]
    show (s.page.set i (.widget l)).set i (.link l) = s.page
    rw [List.set_set]
    exact list_set_own s.page i (.link l) h
  · rw [hs1]
    simp [conf_step, hw]

/-- Claim C4, witness: the confirmation-flow theorem on a one-link page,
checking that "yes" navigates to the stored href. -/
theorem c4_confirmation_witness :
    (conf_step (conf_step ⟨[.link ⟨"/del", "Sure?", "confirmation-link"⟩], none, none⟩
      (.clickLink 0)) (.clickYes 0)).nav = some "/del" :=
  (c4_confirmation_flow ⟨[.link ⟨"/del", "Sure?", "confirmation-link"⟩], none, none⟩
    0 ⟨"/del", "Sure?", "confirmation-link"⟩ rfl).2.2.2

/-- Claim C7: the confirmation component keeps one remembered restore target
in a single global slot; a second confirmation triggered before the first is
resolved overwrites the slot, so a later "no" on the first widget restores
the second confirmation's saved element, not the first's. -/
theorem c7_confirmation_single_slot (s : ConfState) (i j : Nat) (l1 l2 : CLink)
    (hij : i ≠ j)
    (h1 : s.page[i]? = some (.link l1))
    (h2 : s.page[j]? = some (.link l2)) :
    (conf_step s (.clickLink i)).slot = some l1 ∧
    (conf_step (conf_step s (.clickLink i)) (.clickLink j)).slot = some l2 ∧
    (conf_step (conf_step (conf_step s (.clickLink i)) (.clickLink j))
      (.clickNo i)).page[i]? = some (.link l2) ∧
    (l1 ≠ l2 →
      (conf_step (conf_step (conf_step s (.clickLink i)) (.clickLink j))
        (.clickNo i)).page[i]? ≠ some (.link l1)) := by
  obtain ⟨hlt1, -⟩ := List.getElem?_eq_some_iff.mp h1
  have hs1 : conf_step s (.clickLink i) =
      ⟨s.page.set i (.widget l1), some l1, s.nav⟩ := by
    simp [conf_step, h1]
  have h2' : (s.page.set i (.widget l1))[j]? = some (.link l2) := by
    rw [List.getElem?_set_ne hij]
    exact h2
  have hs2 : conf_step ⟨s.page.set i (.widget l1), some l1, s.nav⟩ (.clickLink j) =
      ⟨(s.page.set i (.widget l1)).set j (.widget l2), some l2, s.nav⟩ := by
    simp [conf_step, h2']
  have hi2 : ((s.page.set i (.widget l1)).set j (.widget l2))[i]? =
      some (.widget l1) := by
    rw [List.getElem?_set_ne (Ne.symm hij)]
    exact List.getElem?_set_self hlt1
  have hno : conf_step ⟨(s.page.set i (.widget l1)).set j (.widget l2), some l2, s.nav⟩
      (.clickNo i) =
      ⟨((s.page.set i (.widget l1)).set j (.widget l2)).set i (.link l2), some l2,
        s.nav⟩ := by
    simp [conf_step, hi2]
  have hfin : (((s.page.set i (.widget l1)).set j (.widget l2)).set i
      (.link l2))[i]? = some (.link l2) := by
    apply List.getElem?_set_self
    simpa using hlt1
  refine ⟨by rw [hs1], by rw [hs1, hs2], by rw [hs1, hs2, hno]; exact hfin, ?_⟩
  intro hne
  rw [hs1, hs2, hno, hfin]
  simpa using Ne.symm hne

/-- Claim C7, witness: the single-slot theorem on a two-link page, checking
that "no" on the first widget yields the second link. -/
theorem c7_single_slot_witness :
    (conf_step (conf_step (conf_step
      ⟨[.link ⟨"/a", "A", "c"⟩, .link ⟨"/b", "B", "c"⟩], none, none⟩
      (.clickLink 0)) (.clickLink 1)) (.clickNo 0)).page[0]? =
      some (.link ⟨"/b", "B", "c"⟩) :=
  (c7_confirmation_single_slot
    ⟨[.link ⟨"/a", "A", "c"⟩, .link ⟨"/b", "B", "c"⟩], none, none⟩
    0 1 ⟨"/a", "A", "c"⟩ ⟨"/b", "B", "c"⟩ (by decide) rfl rfl).2.2.1

/-- Claim C8: an absent product-tab or category-tab cookie selects tab index
0 at load, a present cookie selects its parsed integer index, and with the
property-edit-mode cookie absent the first toggle shows the edit fields and
stores `true`. -/
theorem c8_preference_defaults :
    tabs_select_index none = some 0 ∧
    (∀ (s : String) (n : Nat), parseIntJS s = some n →
      tabs_select_index (some s) = some n) ∧
    property_edit_mode_click none = (true, "true") := by
  refine ⟨rfl, ?_, rfl⟩
  intro s n h
  simpa [tabs_select_index] using h

/-- Claim C8, witness: the preferences theorem at the concrete cookie value
"2". -/
theorem c8_preference_witness : tabs_select_index (some "2") = some 2 :=
  c8_preference_defaults.2.1 "2" 2 (by decide)

/-- Claim C9: after `update_positions` runs, the `.position` elements hold,
in document order, the values 10, 20, 30, ... — the i-th (from 0) holds
10*(i+1) — regardless of their previous values, with the element count
unchanged. -/
theorem c9_update_positions_spec (xs : List Nat) (i : Nat) (h : i < xs.length) :
    (update_positions xs).length = xs.length ∧
    (update_positions xs)[i]? = some (10 * (i + 1)) := by
  constructor
  · exact update_positions_go_length xs 0
  · have hg := update_positions_go_getElem xs 0 i h
    simpa [update_positions] using hg

/-- Claim C9, witness: `update_positions` on the concrete list [7, 3, 99] at
index 1. -/
theorem c9_update_positions_witness :
    (update_positions [7, 3, 99]).length = [7, 3, 99].length ∧
    (update_positions [7, 3, 99])[1]? = some (10 * (1 + 1)) :=
  c9_update_positions_spec [7, 3, 99] 1 (by decide)

/-- Claim C10: shift-clicking a `select-1` checkbox into the checked state
marks and checks every immediately preceding row (nearest first) up to but
not including the nearest preceding row already marked, leaving the rows
from that one on unchanged; symmetrically, shift-clicking into the unchecked
state unmarks and unchecks every immediately preceding row up to but not
including the nearest preceding unmarked row. -/
theorem c10_shift_select_spec (own : Row) (prev : List Row) :
    (select1_click true true own prev).1 = ⟨true, true⟩ ∧
    (select1_click true true own prev).2 =
      (prev.takeWhile (fun r => !r.marked)).map (fun _ => (⟨true, true⟩ : Row)) ++
        prev.dropWhile (fun r => !r.marked) ∧
    (select1_click false true own prev).1 = ⟨false, false⟩ ∧
    (select1_click false true own prev).2 =
      (prev.takeWhile (fun r => r.marked)).map (fun _ => (⟨false, false⟩ : Row)) ++
        prev.dropWhile (fun r => r.marked) := by
  refine ⟨rfl, ?_, rfl, ?_⟩
  · simp [select1_click, shift_mark_up_eq]
  · simp [select1_click, shift_unmark_up_eq]

end LfsManage
